import Mathlib

/-!
Verification of `copy_footage_script_threading.py` (local NAS backup alerts).

The Python source is shallowly embedded: JSON dictionary fields become
`Option`-valued record fields, Python truthiness tests (`if not x`, `x or y`)
become explicit tests against `0` / `""` / absence, Python `//` (floor
division) becomes `Int.fdiv`, and `int(x / 2)` on a nonnegative machine
integer becomes truncating division (exact for the sizes at hand).
Side-effecting interactions (HTTP requests, the filesystem) are passed in as
explicit values or oracles.
-/

/-- Python `a or b` on optional integer fields: a present nonzero value wins,
otherwise the fallback (which may itself be absent or zero) is used. -/
def pyOrInt (a b : Option Int) : Option Int :=
  match a with
  | some v => if v ≠ 0 then some v else b
  | none => b

/-- Python `a or b` on optional string fields: a present nonempty value wins. -/
def pyOrStr (a b : Option String) : Option String :=
  match a with
  | some s => if s ≠ "" then some s else b
  | none => b

/-- Python truthiness of an optional integer (`if not x` fails on it). -/
def truthyInt : Option Int → Bool
  | some v => v != 0
  | none => false

/-- Python truthiness of an optional string. -/
def truthyStr : Option String → Bool
  | some s => s != ""
  | none => false

/-- An alert record as read from the policy-alert feed (lines 168-195 of the
source access exactly these keys; absent keys are `none`). -/
structure Alert where
  timestampMs : Option Int
  eventStartMs : Option Int
  eventEndMs : Option Int
  deviceUuid : Option String
  cameraUuid : Option String
  deviceName : Option String
  cameraName : Option String
  alertId : Option String
  alertType : Option String
deriving DecidableEq

/-- The download-task dictionary built at lines 197-205 of the source. -/
structure DownloadTask where
  device_uuid : String
  device_name : String
  start_time : Int
  duration : Int
  alert_id : String
  alert_type : String
  timestamp_ms : Int
deriving DecidableEq

/-- One iteration of the loop body of `process_alerts_for_download`
(lines 168-213): `none` models `continue` (the alert is skipped). -/
def process_alert (b : Int) (alert : Alert) : Option DownloadTask :=
  match pyOrInt alert.timestampMs alert.eventStartMs with
  | none => none
  | some ts =>
    if ts = 0 then none
    else
      let start_time := ts.fdiv 1000 - b
      let duration :=
        match alert.eventEndMs with
        | some e => if e ≠ 0 then (e - ts).fdiv 1000 + 2 * b else 120 + 2 * b
        | none => 120 + 2 * b
      match pyOrStr alert.deviceUuid alert.cameraUuid with
      | none => none
      | some du =>
        if du = "" then none
        else
          some {
            device_uuid := du
            device_name :=
              (pyOrStr alert.deviceName (some (alert.cameraName.getD ("Unknown")))).getD ("Unknown")
            start_time := max 0 start_time
            duration := duration
            alert_id := alert.alertId.getD ("unknown")
            alert_type := alert.alertType.getD ("alert")
            timestamp_ms := ts }

/-- `process_alerts_for_download(alerts, alert_buffer_seconds)` (lines 165-216):
each alert is processed independently, skipped alerts contribute nothing. -/
def process_alerts_for_download (alerts : List Alert) (b : Int) : List DownloadTask :=
  alerts.filterMap (process_alert b)

/-- An alert survives the two `continue` guards of the loop iff its timestamp
(primary or fallback) is present-and-nonzero and its device uuid (primary or
fallback) is present-and-nonempty. -/
def validAlert (alert : Alert) : Bool :=
  truthyInt (pyOrInt alert.timestampMs alert.eventStartMs) &&
  truthyStr (pyOrStr alert.deviceUuid alert.cameraUuid)

/-- The task record of lines 197-205, as a total function of the alert
(meaningful when `validAlert` holds). -/
def mkTask (b : Int) (alert : Alert) : DownloadTask :=
  let ts := (pyOrInt alert.timestampMs alert.eventStartMs).getD 0
  { device_uuid := (pyOrStr alert.deviceUuid alert.cameraUuid).getD ("")
    device_name :=
      (pyOrStr alert.deviceName (some (alert.cameraName.getD ("Unknown")))).getD ("Unknown")
    start_time := max 0 (ts.fdiv 1000 - b)
    duration :=
      match alert.eventEndMs with
      | some e => if e ≠ 0 then (e - ts).fdiv 1000 + 2 * b else 120 + 2 * b
      | none => 120 + 2 * b
    alert_id := alert.alertId.getD ("unknown")
    alert_type := alert.alertType.getD ("alert")
    timestamp_ms := ts }

/-! ### URI substitution and the segment naming scheme -/

/-- Python `str.replace(pat, rep)` on character lists: every non-overlapping
occurrence of `pat` is replaced, scanning left to right.  The fuel argument
(initially the length of the string) only serves termination; one unit is
spent per character position examined, so `s.length` units always suffice
for a nonempty pattern. -/
def listReplaceAux (pat rep : List Char) : Nat → List Char → List Char
  | 0, s => s
  | _ + 1, [] => []
  | fuel + 1, c :: rest =>
    if pat.isPrefixOf (c :: rest) then
      rep ++ listReplaceAux pat rep fuel ((c :: rest).drop pat.length)
    else c :: listReplaceAux pat rep fuel rest

/-- Python `s.replace(pat, rep)`. -/
def listReplace (pat rep s : List Char) : List Char :=
  listReplaceAux pat rep s.length s

/-- Python `pat in s` (substring containment). -/
def containsSub (pat s : List Char) : Bool :=
  (List.range (s.length + 1)).any fun i => pat.isPrefixOf (s.drop i)

/-- `URI_FILE_ENDINGS = ["clip.mpd", "file.mpd"]` (line 44). -/
def URI_FILE_ENDINGS : List (List Char) := [("clip.mpd").data, ("file.mpd").data]

/-- `get_segment_uri(mpd_uri, segment_name)` (lines 115-119): the first listed
ending contained in the URI is replaced (all its occurrences) by the segment
name; `none` models the Python `return None` fall-through. -/
def get_segment_uri (mpd_uri segment_name : List Char) : Option (List Char) :=
  match URI_FILE_ENDINGS.find? (fun e => containsSub e mpd_uri) with
  | some ending => some (listReplace ending segment_name mpd_uri)
  | none => none

/-- The interface of the external manifest parser (`RhombusMPDInfo` from
`rhombus_mpd_info`, outside this file's scope): the fields the download loop
reads. -/
structure RhombusMPDInfo where
  init_string : List Char
  segment_pattern : List Char
  start_index : Int
deriving DecidableEq

/-- The literal placeholder in the segment name pattern. -/
def numberPat : List Char := ("$Number$").data

/-- `get_segment_uri_index(rhombus_mpd_info, mpd_uri, index)` (lines 122-126). -/
def get_segment_uri_index (info : RhombusMPDInfo) (mpd_uri : List Char) (index : Int) :
    Option (List Char) :=
  get_segment_uri mpd_uri
    (listReplace numberPat (toString (index + info.start_index)).data info.segment_pattern)

/-- `range(int(self.duration / 2))` (lines 386 and 486): Python's true
division followed by `int` truncates toward zero (exact for the integer
magnitudes in play), and `range` of a nonpositive count is empty. -/
def numSegments (duration : Int) : Nat := (duration.tdiv 2).toNat

/-- The sequence of segment URIs requested by the download loop of
`execute_video` (lines 384-395) / `execute_audio` (lines 484-496):
one request per loop index `0 .. int(duration/2) - 1`. -/
def segment_uris (info : RhombusMPDInfo) (mpd_uri : List Char) (duration : Int) :
    List (Option (List Char)) :=
  (List.range (numSegments duration)).map fun i =>
    get_segment_uri_index info mpd_uri (Int.ofNat i)

/-! ### The segment download loop, with its failure behaviour -/

/-- Outcome of one `self.media_sess.get(seg_uri, ...)`: either the transport
raises, or a response with some HTTP status and a body arrives. -/
inductive FetchResult where
  | err
  | resp (status : Nat) (content : List Nat)
deriving DecidableEq

/-- The body bytes of a response (`[]` for the raising case, never used). -/
def FetchResult.content : FetchResult → List Nat
  | FetchResult.err => []
  | FetchResult.resp _ c => c

/-- The segment loop of `execute_video` lines 386-395 (identical in
`execute_audio`, lines 486-496), iterating `k` more indices starting at `i`
against the fetch oracle `f`.  Each iteration issues the GET and appends
`seg_resp.content` to the open file unconditionally — the source never
inspects `seg_resp.status_code` — while a raised transport error propagates
out of the loop (the `with open` block closes the file, leaving the bytes
appended so far on disk).  Result: the `(index, content)` pairs appended, in
order, and whether the loop ran to completion without an exception. -/
def segLoop (f : Nat → FetchResult) : Nat → Nat → List (Nat × List Nat) × Bool
  | _, 0 => ([], true)
  | i, k + 1 =>
    match f i with
    | FetchResult.err => ([], false)
    | FetchResult.resp _ c =>
      let r := segLoop f (i + 1) k
      ((i, c) :: r.1, r.2)

/-- The whole data-segment loop: indices `0 .. n-1`. -/
def execute_segments (f : Nat → FetchResult) (n : Nat) : List (Nat × List Nat) × Bool :=
  segLoop f 0 n

/-- A fetch oracle whose segment 0 yields a non-success (404) response. -/
def fetch404 : Nat → FetchResult := fun i =>
  if i = 0 then FetchResult.resp 404 [7] else FetchResult.resp 200 [1]

/-- A fetch oracle whose segment 1 raises a transport error. -/
def fetchErr1 : Nat → FetchResult := fun i =>
  if i = 1 then FetchResult.err else FetchResult.resp 200 [i]

/-! ### The pre-download phase of `execute_video` / `execute_audio` -/

/-- The JSON body of a `getMediaUris` response, restricted to the fields the
source reads (lines 336-340 and 440-443); `none` in a field models a body
where `json()` succeeds but the key is missing (a `KeyError` when read). -/
structure MediaUrisBody where
  wanVodMpdUriTemplate : Option (List Char)
  lanVodMpdUrisTemplates : List (List Char)
deriving DecidableEq

/-- How the pre-download phase of a stream ends. -/
inductive PreambleResult where
  | abortSessionCheck
  | abortMediaCheck
  | exn
  | proceed (template : List Char)
deriving DecidableEq

/-- Lines 302-343 of `execute_video` (lines 416-446 of `execute_audio` are
line-for-line the same shape): the session-token guard, then the guard that
the source writes as `if session_req_resp.status_code != 200` (line 329 /
line 436) — note it re-tests the session response's status, not
`media_uri_resp.status_code`, exactly as the source does — then the template
extraction from the media-uris body, whose failure raises (modelled `exn`).
`media_status` is the status of the `getMediaUris` response; the source never
reads it. -/
def execute_video_preamble (use_wan : Bool) (session_status media_status : Nat)
    (media_body : Option MediaUrisBody) : PreambleResult :=
  if session_status ≠ 200 then PreambleResult.abortSessionCheck
  else if session_status ≠ 200 then PreambleResult.abortMediaCheck
  else
    match media_body with
    | none => PreambleResult.exn
    | some body =>
      if use_wan then
        match body.wanVodMpdUriTemplate with
        | none => PreambleResult.exn
        | some t => PreambleResult.proceed t
      else
        match body.lanVodMpdUrisTemplates with
        | [] => PreambleResult.exn
        | t :: _ => PreambleResult.proceed t

/-! ### `get_policy_alerts` -/

/-- The JSON body of a `getPolicyAlerts` response: `alerts` key optional
(`alerts_data.get('alerts', [])`). -/
structure AlertsBody where
  alerts : Option (List Alert)
deriving DecidableEq

/-- Outcome of the one `requests.post` call (plus body parsing): `exn` models
a raised transport error or a body on which `response.json()` raises —
both are caught by the `except` clause of lines 160-162. -/
inductive HttpResult (β : Type) where
  | exn
  | resp (status : Nat) (body : Option β)

/-- `get_policy_alerts` (lines 129-162), as a function of the remote call's
outcome: non-success statuses and any raised exception yield `[]`; a success
response yields `alerts_data.get('alerts', [])`. -/
def get_policy_alerts (r : HttpResult AlertsBody) : List Alert :=
  match r with
  | HttpResult.exn => []
  | HttpResult.resp status body =>
    if status ≠ 200 then []
    else
      match body with
      | none => []
      | some b => b.alerts.getD []

/-! ### The muxing step of `worker_alert` / `worker_manual` -/

/-- The try-block of `worker_alert` lines 607-618 (`worker_manual` lines
542-554 is identical), acting on the filesystem viewed as a set of file
names.  On muxer success the combined file exists (written by
`ffmpeg...run`), then `os.remove(audio_file)` and `os.remove(video_file)`
run in that order; if `ffmpeg...run` raises `ffmpeg.Error`, the handler only
logs and neither remove runs. -/
def worker_mux (muxSucceeds : Bool) (fs : String → Bool) (video audio combined : String) :
    String → Bool :=
  if muxSucceeds then
    fun f =>
      if f = video then false
      else if f = audio then false
      else if f = combined then true
      else fs f
  else fs

/-! ### `get_camera_to_gateway_map` -/

/-- One entry of `camResDict["cameraStates"]`, restricted to the fields the
source reads (lines 244-254). -/
structure CamState where
  uuid : String
  name : String
  connectionStatus : String
  locationUuid : String
deriving DecidableEq

/-- One entry of `audResDict["audioGatewayStates"]` (lines 256-259). -/
structure AudioGatewayState where
  uuid : String
  associatedCameras : List String
deriving DecidableEq

/-- The per-camera value dictionary `{name: ..., audioGatewayUuid: ...}`. -/
structure CamEntry where
  name : String
  audioGatewayUuid : Option String
deriving DecidableEq

/-- Python dict assignment `d[k] = v` on an insertion-ordered association
list: an existing key keeps its position and gets the new value, a new key is
appended. -/
def dictInsert (k : String) (v : CamEntry) (m : List (String × CamEntry)) :
    List (String × CamEntry) :=
  if m.any (fun p => p.1 == k) then m.map (fun p => if p.1 == k then (k, v) else p)
  else m ++ [(k, v)]

/-- Line 257-259: `if cameraUuid in camUuidDict:
camUuidDict[cameraUuid]["audioGatewayUuid"] = audioGateway["uuid"]`. -/
def assignGateway (gw : AudioGatewayState) (m : List (String × CamEntry)) (camUuid : String) :
    List (String × CamEntry) :=
  m.map fun p =>
    if p.1 == camUuid then (p.1, { p.2 with audioGatewayUuid := some gw.uuid }) else p

/-- The nested gateway loop of lines 256-259, run over all gateways. -/
def updateGateways (gws : List AudioGatewayState) (m : List (String × CamEntry)) :
    List (String × CamEntry) :=
  gws.foldl (fun acc gw => gw.associatedCameras.foldl (assignGateway gw) acc) m

/-- One iteration of the camera loop (lines 244-259): the `RED` connection
guard, the optional location and camera filters, then the dict insertion
followed by the gateway-association pass. -/
def addCamera (lo ca : Option String) (gws : List AudioGatewayState)
    (m : List (String × CamEntry)) (c : CamState) : List (String × CamEntry) :=
  if c.connectionStatus == ("RED") then m
  else if (match lo with | some l => c.locationUuid != l | none => false) then m
  else if (match ca with | some u => c.uuid != u | none => false) then m
  else updateGateways gws (dictInsert c.uuid { name := c.name, audioGatewayUuid := none } m)

/-- `get_camera_to_gateway_map(api_key, location_uuid, camera_uuid)`
(lines 221-264), as a function of the two directory responses. -/
def get_camera_to_gateway_map (lo ca : Option String) (cams : List CamState)
    (gws : List AudioGatewayState) : List (String × CamEntry) :=
  cams.foldl (addCamera lo ca gws) []

/-- The filter condition a camera must pass to be inserted (derived from the
three guards of `addCamera`). -/
def camPasses (lo ca : Option String) (c : CamState) : Prop :=
  c.connectionStatus ≠ ("RED") ∧
  (∀ l, lo = some l → c.locationUuid = l) ∧
  (∀ u, ca = some u → c.uuid = u)

/-! ### Concrete inputs used by counterexamples and witnesses -/

/-- An alert whose end-timestamp key is present with value `0`. -/
def alertEndZero : Alert :=
  { timestampMs := some 1000000, eventStartMs := none, eventEndMs := some 0,
    deviceUuid := some ("d"), cameraUuid := none, deviceName := some ("n"),
    cameraName := none, alertId := some ("id1"), alertType := some ("motion") }

/-- A well-formed alert with both timestamps. -/
def alertFull : Alert :=
  { timestampMs := some 5000, eventStartMs := none, eventEndMs := some 9000,
    deviceUuid := some ("d"), cameraUuid := none, deviceName := some ("n"),
    cameraName := none, alertId := some ("id1"), alertType := some ("motion") }

/-- An alert present at epoch time 0 (primary timestamp key present, value 0). -/
def alertZeroTs : Alert :=
  { timestampMs := some 0, eventStartMs := none, eventEndMs := none,
    deviceUuid := some ("d"), cameraUuid := none, deviceName := none,
    cameraName := none, alertId := none, alertType := none }

/-- A small manifest-parser result. -/
def mpdInfo0 : RhombusMPDInfo :=
  { init_string := ("seg_init.mp4").data,
    segment_pattern := ("seg_$Number$.m4v").data,
    start_index := 1 }

/-- A healthy camera at location `L` with uuid `U`. -/
def cam0 : CamState :=
  { uuid := ("U"), name := ("n"), connectionStatus := ("GREEN"), locationUuid := ("L") }

/-!
## Theorems
-/

lemma process_alert_eq (b : Int) (a : Alert) :
    process_alert b a = if validAlert a then some (mkTask b a) else none := by
  unfold process_alert validAlert mkTask
  cases hts : pyOrInt a.timestampMs a.eventStartMs with
  | none => simp [truthyInt]
  | some ts =>
    by_cases h0 : ts = 0
    · subst h0; simp [truthyInt]
    · cases hdu : pyOrStr a.deviceUuid a.cameraUuid with
      | none => simp [truthyInt, truthyStr, h0]
      | some du =>
        by_cases he : du = ""
        · subst he; simp [truthyInt, truthyStr, h0]
        · simp [truthyInt, truthyStr, h0, he]

/-- C1 counterexample: `alertEndZero` has its end-timestamp key present
(value `0`) and a nonzero primary timestamp, so by the claim its task's
duration should be `fdiv (0 - 1000000) 1000 + 2*30 = -940`; the code's
falsiness test takes the default branch instead and produces `180`. -/
theorem C1_counterexample :
    (process_alert 30 alertEndZero).map DownloadTask.duration = some 180 ∧
    (180 : Int) ≠ ((0 : Int) - 1000000).fdiv 1000 + 2 * 30 := by
  constructor
  · rfl
  · decide

/-- C1 (amended): whenever `process_alerts_for_download`'s loop body produces
a task from an alert whose extracted timestamp (primary, falling back to
`eventStartMs`) is `ts`, the task's start time is `max 0 (ts/1000 - b)`
(floor division); its duration is `(e - ts)/1000 + 2*b` when the end
timestamp is present and nonzero, and `120 + 2*b` when it is absent or zero. -/
theorem C1_window (b : Int) (a : Alert) (t : DownloadTask) (ts : Int)
    (hts : pyOrInt a.timestampMs a.eventStartMs = some ts)
    (ht : process_alert b a = some t) :
    t.start_time = max 0 (ts.fdiv 1000 - b) ∧
    (∀ e, a.eventEndMs = some e → e ≠ 0 → t.duration = (e - ts).fdiv 1000 + 2 * b) ∧
    ((a.eventEndMs = none ∨ a.eventEndMs = some 0) → t.duration = 120 + 2 * b) := by
  unfold process_alert at ht
  rw [hts] at ht
  by_cases h0 : ts = 0
  · simp [h0] at ht
  · simp only [h0, if_false, ite_false] at ht
    cases hdu : pyOrStr a.deviceUuid a.cameraUuid with
    | none => rw [hdu] at ht; exact absurd ht (by simp)
    | some du =>
      rw [hdu] at ht
      by_cases he : du = ""
      · simp [he] at ht
      · simp only [he, if_false, ite_false, Option.some.injEq] at ht
        subst ht
        refine ⟨rfl, ?_, ?_⟩
        · intro e hee hne
          simp [hee, hne]
        · rintro (hee | hee) <;> simp [hee]

/-- C1 witness: the amended window formulas evaluated on `alertFull`. -/
theorem C1_window_witness :
    (mkTask 30 alertFull).start_time = max 0 ((5000 : Int).fdiv 1000 - 30) ∧
    (mkTask 30 alertFull).duration = ((9000 : Int) - 5000).fdiv 1000 + 2 * 30 := by
  have h := C1_window 30 alertFull (mkTask 30 alertFull) 5000 (by decide) (by decide)
  exact ⟨h.1, h.2.1 9000 rfl (by decide)⟩

/-- C6: `process_alerts_for_download` never raises (it is a total function),
drops exactly the alerts that fail the timestamp or device-uuid guard, and
produces one task per surviving alert, in order — a skip affects no other
alert. -/
theorem C6_tasks (alerts : List Alert) (b : Int) :
    process_alerts_for_download alerts b = (alerts.filter validAlert).map (mkTask b) := by
  induction alerts with
  | nil => rfl
  | cons a t ih =>
    simp only [process_alerts_for_download, List.filterMap_cons, List.filter_cons] at *
    rw [process_alert_eq]
    by_cases h : validAlert a <;> simp [h, ih]

/-- C10: an alert whose primary timestamp key is present with value `0`
(fallback absent or also `0`) is skipped by `process_alerts_for_download`
exactly as a missing timestamp would be: removing it from the input leaves
the output unchanged. -/
theorem C10_zero_timestamp (b : Int) (a : Alert) (pre post : List Alert)
    (h1 : a.timestampMs = some 0) (h2 : a.eventStartMs = none ∨ a.eventStartMs = some 0) :
    process_alerts_for_download (pre ++ a :: post) b =
      process_alerts_for_download (pre ++ post) b := by
  have hnone : process_alert b a = none := by
    unfold process_alert pyOrInt
    rw [h1]
    rcases h2 with h | h <;> rw [h] <;> simp
  simp [process_alerts_for_download, List.filterMap_append, List.filterMap_cons, hnone]

/-- C10 witness: the epoch-0 alert `alertZeroTs` produces no task. -/
theorem C10_zero_timestamp_witness :
    process_alerts_for_download ([] ++ alertZeroTs :: []) 30 =
      process_alerts_for_download ([] ++ []) 30 :=
  C10_zero_timestamp 30 alertZeroTs [] [] rfl (Or.inl rfl)

lemma segLoop_err_range (f : Nat → FetchResult) (j : Nat) (herr : f j = FetchResult.err) :
    ∀ (k i : Nat), i ≤ j → j < i + k →
      (∀ m, i ≤ m → m < j → f m ≠ FetchResult.err) →
      segLoop f i k = ((List.range' i (j - i)).map fun m => (m, (f m).content), false) := by
  intro k
  induction k with
  | zero => intro i h1 h2 _; omega
  | succ k ih =>
    intro i h1 h2 h3
    by_cases hij : i = j
    · subst hij
      simp [segLoop, herr]
    · have hlt : i < j := lt_of_le_of_ne h1 hij
      have hne := h3 i le_rfl hlt
      cases hfi : f i with
      | err => exact absurd hfi hne
      | resp s c =>
        have hrec := ih (i + 1) hlt (by omega) (fun m hm1 hm2 => h3 m (by omega) hm2)
        have hsplit : j - i = (j - (i + 1)) + 1 := by omega
        rw [hsplit, List.range'_succ]
        simp only [segLoop, hfi, hrec, List.map_cons]
        simp [hfi, FetchResult.content]

/-- C4 counterexample: a non-success (404) response at segment 0 does not
abort the loop — its body is appended and segment 1 is still fetched and
written (the source never inspects `seg_resp.status_code`). -/
theorem C4_counterexample :
    fetch404 0 = FetchResult.resp 404 [7] ∧
    execute_segments fetch404 2 = ([(0, [7]), (1, [1])], true) := by
  constructor
  · rfl
  · rfl

/-- C4 (amended): a raised transport error at segment index `j` aborts the
remaining iterations of the stream's loop; the bytes of segments `0 .. j-1`
(whatever their HTTP statuses) remain appended, and no segment with a higher
index is fetched or written.  A non-success response, by contrast, does not
abort (see the counterexample). -/
theorem C4_abort (f : Nat → FetchResult) (n j : Nat) (hj : j < n)
    (herr : f j = FetchResult.err) (hpre : ∀ i, i < j → f i ≠ FetchResult.err) :
    execute_segments f n = ((List.range j).map fun i => (i, (f i).content), false) := by
  unfold execute_segments
  rw [segLoop_err_range f j herr n 0 (Nat.zero_le j) (by omega)
    (fun m _ hm2 => hpre m hm2)]
  rw [List.range_eq_range']
  simp

/-- C4 witness: with a transport error at segment 1, only segment 0's bytes
are on disk and the loop did not complete. -/
theorem C4_abort_witness :
    execute_segments fetchErr1 3 = ([(0, [0])], false) :=
  (C4_abort fetchErr1 3 1 (by decide) (by decide) (by decide)).trans (by decide)

/-- C5 (code bug, evaluated at the failing input): the `getMediaUris` response
has status 500, yet the phase proceeds to the manifest template — the guard
at line 329 re-checks `session_req_resp.status_code` instead of
`media_uri_resp.status_code`, so a non-success media-uri response is never
caught. -/
theorem C5_wrong_status_check :
    execute_video_preamble true 200 500
        (some { wanVodMpdUriTemplate := some (("T").data), lanVodMpdUrisTemplates := [] }) =
      PreambleResult.proceed (("T").data) ∧
    (500 : Nat) ≠ 200 := by
  constructor
  · rfl
  · decide

/-- C7: `get_policy_alerts` returns `[]` on a raised transport error and on
any non-success response (never raising to its caller), and returns the
response body's alert list on a success response. -/
theorem C7_contract (status : Nat) (body : Option AlertsBody) (l : List Alert) :
    get_policy_alerts HttpResult.exn = [] ∧
    (status ≠ 200 → get_policy_alerts (HttpResult.resp status body) = []) ∧
    (status = 200 → body = some { alerts := some l } →
      get_policy_alerts (HttpResult.resp status body) = l) := by
  refine ⟨rfl, ?_, ?_⟩
  · intro h
    simp [get_policy_alerts, h]
  · intro h hb
    subst h; subst hb
    simp [get_policy_alerts]

/-- C7 witness: a 404 yields `[]`; a 200 with an explicit alert list yields
that list. -/
theorem C7_contract_witness :
    get_policy_alerts (HttpResult.resp 404 none) = [] ∧
    get_policy_alerts (HttpResult.resp 200 (some { alerts := some [alertFull] })) = [alertFull] :=
  ⟨(C7_contract 404 none []).2.1 (by decide),
   (C7_contract 200 (some { alerts := some [alertFull] }) [alertFull]).2.2 rfl rfl⟩

/-- C8: after both streams complete, a successful mux leaves the combined
file present, deletes the two intermediate files, and touches nothing else;
a failed mux (a raised `ffmpeg.Error`, only logged) leaves the filesystem —
in particular both intermediate files — exactly as it was. -/
theorem C8_mux (fs : String → Bool) (v a c : String) (hcv : c ≠ v) (hca : c ≠ a) :
    (worker_mux true fs v a c v = false ∧
     worker_mux true fs v a c a = false ∧
     worker_mux true fs v a c c = true ∧
     ∀ f, f ≠ v → f ≠ a → f ≠ c → worker_mux true fs v a c f = fs f) ∧
    worker_mux false fs v a c = fs := by
  refine ⟨⟨?_, ?_, ?_, ?_⟩, rfl⟩
  · simp [worker_mux]
  · unfold worker_mux
    by_cases hav : a = v <;> simp [hav]
  · simp [worker_mux, hcv, hca]
  · intro f h1 h2 h3
    simp [worker_mux, h1, h2, h3]

/-- C8 witness: concrete names, successful mux keeps only the combined file. -/
theorem C8_mux_witness :
    worker_mux true (fun _ => true) ("v.mp4") ("a.mp4") ("c.mp4") ("c.mp4") = true ∧
    worker_mux true (fun _ => true) ("v.mp4") ("a.mp4") ("c.mp4") ("v.mp4") = false :=
  ⟨((C8_mux (fun _ => true) ("v.mp4") ("a.mp4") ("c.mp4") (by decide) (by decide)).1).2.2.1,
   ((C8_mux (fun _ => true) ("v.mp4") ("a.mp4") ("c.mp4") (by decide) (by decide)).1).1⟩

/-- C2: for a positive duration `d` the segment loop issues exactly
`⌊d / 2⌋` requests (any odd remainder is dropped; no partial final segment),
and the `i`-th requested URI is the manifest base URI with the segment name
obtained by substituting `start_index + i` for the pattern's
`$Number$` placeholder. -/
theorem C2_segment_loop (info : RhombusMPDInfo) (mpd_uri : List Char) (d : Int) (hd : 0 < d) :
    (segment_uris info mpd_uri d).length = d.toNat / 2 ∧
    ∀ i : Nat, i < d.toNat / 2 →
      (segment_uris info mpd_uri d)[i]? =
        some (get_segment_uri mpd_uri
          (listReplace numberPat (toString (info.start_index + Int.ofNat i)).data
            info.segment_pattern)) := by
  obtain ⟨n, rfl⟩ := Int.eq_ofNat_of_zero_le hd.le
  have hnum : numSegments (n : Int) = n / 2 := by
    unfold numSegments
    have h2 : ((n : Int)).tdiv 2 = ((n / 2 : Nat) : Int) := by
      exact_mod_cast (Int.ofNat_tdiv n 2).symm
    rw [h2, Int.toNat_natCast]
  constructor
  · simp [segment_uris, hnum, Int.toNat_natCast]
  · intro i hi
    rw [Int.toNat_natCast] at hi
    unfold segment_uris
    rw [List.getElem?_map, List.getElem?_range (by rw [hnum]; exact hi)]
    unfold get_segment_uri_index
    rw [Int.add_comm]
    rfl

/-- C2 witness: duration 5 yields two whole 2-second segments. -/
theorem C2_segment_loop_witness :
    (segment_uris mpdInfo0 (("a/clip.mpd").data) 5).length = (5 : Int).toNat / 2 :=
  (C2_segment_loop mpdInfo0 (("a/clip.mpd").data) 5 (by decide)).1

lemma listReplaceAux_nil (pat rep : List Char) (fuel : Nat) :
    listReplaceAux pat rep fuel [] = [] := by
  cases fuel <;> rfl

lemma listReplaceAux_cons_pos (pat rep : List Char) (fuel : Nat) (c : Char) (rest : List Char)
    (h : pat.isPrefixOf (c :: rest) = true) :
    listReplaceAux pat rep (fuel + 1) (c :: rest) =
      rep ++ listReplaceAux pat rep fuel ((c :: rest).drop pat.length) := by
  simp [listReplaceAux, h]

lemma listReplaceAux_cons_neg (pat rep : List Char) (fuel : Nat) (c : Char) (rest : List Char)
    (h : pat.isPrefixOf (c :: rest) = false) :
    listReplaceAux pat rep (fuel + 1) (c :: rest) = c :: listReplaceAux pat rep fuel rest := by
  simp [listReplaceAux, h]

lemma listReplaceAux_only_suffix (pat rep : List Char) (hp : pat ≠ []) :
    ∀ (fuel : Nat) (pre : List Char), (pre ++ pat).length ≤ fuel →
      (∀ i, i < pre.length → pat.isPrefixOf ((pre ++ pat).drop i) = false) →
      listReplaceAux pat rep fuel (pre ++ pat) = pre ++ rep := by
  intro fuel
  induction fuel with
  | zero =>
    intro pre hlen _
    exfalso
    cases hpat : pat with
    | nil => exact absurd hpat hp
    | cons c t =>
      rw [hpat] at hlen
      simp [List.length_append] at hlen
  | succ fuel ih =>
    intro pre hlen hocc
    cases pre with
    | nil =>
      cases hpat : pat with
      | nil => exact absurd hpat hp
      | cons c t =>
        subst hpat
        simp only [List.nil_append]
        rw [listReplaceAux_cons_pos _ _ _ _ _
          (List.isPrefixOf_iff_prefix.mpr (List.prefix_refl _))]
        rw [List.drop_length, listReplaceAux_nil, List.append_nil]
    | cons c pre' =>
      have h0 := hocc 0 (by simp)
      rw [List.drop_zero] at h0
      simp only [List.cons_append] at h0 ⊢
      rw [listReplaceAux_cons_neg _ _ _ _ _ h0]
      have hlen' : (pre' ++ pat).length ≤ fuel := by
        simp only [List.cons_append, List.length_cons] at hlen
        omega
      have hocc' : ∀ i, i < pre'.length → pat.isPrefixOf ((pre' ++ pat).drop i) = false := by
        intro i hi
        have := hocc (i + 1) (by simp; omega)
        rwa [List.cons_append, List.drop_succ_cons] at this
      rw [ih pre' hlen' hocc']

lemma containsSub_append_self (pre pat : List Char) :
    containsSub pat (pre ++ pat) = true := by
  unfold containsSub
  rw [List.any_eq_true]
  refine ⟨pre.length, List.mem_range.mpr ?_, ?_⟩
  · simp only [List.length_append]
    omega
  · rw [List.drop_left]
    exact List.isPrefixOf_iff_prefix.mpr (List.prefix_refl _)

lemma find?_ending (uri : List Char) (ending : List Char)
    (he : ending ∈ URI_FILE_ENDINGS)
    (hc : containsSub ending uri = true)
    (honly : ∀ e ∈ URI_FILE_ENDINGS, containsSub e uri = true → e = ending) :
    URI_FILE_ENDINGS.find? (fun e => containsSub e uri) = some ending := by
  have hclip := honly (("clip.mpd").data) (by simp [URI_FILE_ENDINGS])
  simp only [URI_FILE_ENDINGS, List.mem_cons, List.not_mem_nil, or_false] at he
  rcases he with rfl | rfl
  · simp [URI_FILE_ENDINGS, List.find?, hc]
  · have hcf : containsSub (("clip.mpd").data) uri = false := by
      by_contra h
      rw [Bool.not_eq_false] at h
      exact absurd (hclip h) (by decide)
    simp [URI_FILE_ENDINGS, List.find?, hcf, hc]

/-- C3 counterexample: the base URI `"clip.mpd/clip.mpd"` ends in the known
suffix `"clip.mpd"`, but `get_segment_uri` replaces every occurrence of the
suffix — the result differs from the base URI with only the trailing
filename component replaced. -/
theorem C3_counterexample :
    get_segment_uri (("clip.mpd/clip.mpd").data) (("s.mp4").data) =
      some (("s.mp4/s.mp4").data) ∧
    (("s.mp4/s.mp4").data : List Char) ≠ ("clip.mpd/").data ++ ("s.mp4").data := by
  constructor
  · rfl
  · decide

/-- C3 (amended): when the base URI ends in a known suffix, and that suffix
occurs nowhere in the URI but at the end, and no other (earlier-listed)
known suffix occurs in the URI at all, `get_segment_uri` returns the base
URI with exactly the trailing filename component replaced by the segment
name.  (In general the source replaces every occurrence of the first listed
suffix that occurs anywhere as a substring; see the counterexample.) -/
theorem C3_trailing (pre ending seg : List Char)
    (he : ending ∈ URI_FILE_ENDINGS)
    (honly : ∀ e ∈ URI_FILE_ENDINGS, containsSub e (pre ++ ending) = true → e = ending)
    (honce : ∀ i, i < pre.length → ending.isPrefixOf ((pre ++ ending).drop i) = false) :
    get_segment_uri (pre ++ ending) seg = some (pre ++ seg) := by
  have hp : ending ≠ [] := by
    intro h
    subst h
    simp only [URI_FILE_ENDINGS, List.mem_cons, List.not_mem_nil, or_false] at he
    rcases he with h | h <;> exact absurd h (by decide)
  unfold get_segment_uri
  rw [find?_ending (pre ++ ending) ending he (containsSub_append_self pre ending) honly]
  dsimp only
  unfold listReplace
  rw [listReplaceAux_only_suffix ending seg hp (pre ++ ending).length pre le_rfl honce]

/-- C3 witness: a URI whose only suffix occurrence is the trailing one. -/
theorem C3_trailing_witness :
    get_segment_uri (("a/").data ++ ("clip.mpd").data) (("s.mp4").data) =
      some (("a/").data ++ ("s.mp4").data) :=
  C3_trailing (("a/").data) (("clip.mpd").data) (("s.mp4").data)
    (by decide) (by decide) (by decide)

lemma keys_assignGateway (gw : AudioGatewayState) (m : List (String × CamEntry))
    (cu : String) : (assignGateway gw m cu).map Prod.fst = m.map Prod.fst := by
  unfold assignGateway
  rw [List.map_map]
  apply List.map_congr_left
  intro p _
  dsimp only [Function.comp]
  split
  · rfl
  · rfl

lemma keys_foldl_assign (gw : AudioGatewayState) :
    ∀ (cus : List String) (m : List (String × CamEntry)),
      (cus.foldl (assignGateway gw) m).map Prod.fst = m.map Prod.fst := by
  intro cus
  induction cus with
  | nil => intro m; rfl
  | cons cu t ih => intro m; rw [List.foldl_cons, ih, keys_assignGateway]

lemma keys_updateGateways :
    ∀ (gws : List AudioGatewayState) (m : List (String × CamEntry)),
      (updateGateways gws m).map Prod.fst = m.map Prod.fst := by
  intro gws
  induction gws with
  | nil => intro m; rfl
  | cons gw t ih =>
    intro m
    unfold updateGateways at ih ⊢
    rw [List.foldl_cons, ih, keys_foldl_assign]

lemma keys_dictInsert (k : String) (v : CamEntry) (m : List (String × CamEntry)) (x : String)
    (hx : x ∈ (dictInsert k v m).map Prod.fst) : x = k ∨ x ∈ m.map Prod.fst := by
  unfold dictInsert at hx
  split at hx
  · rw [List.map_map] at hx
    rcases List.mem_map.mp hx with ⟨p, hp, hpx⟩
    dsimp only [Function.comp] at hpx
    split at hpx
    · exact Or.inl hpx.symm
    · exact Or.inr (List.mem_map.mpr ⟨p, hp, hpx⟩)
  · rw [List.map_append] at hx
    rcases List.mem_append.mp hx with h | h
    · exact Or.inr h
    · simp only [List.map_cons, List.map_nil, List.mem_singleton] at h
      exact Or.inl h

lemma keys_foldl_addCamera (lo ca : Option String) (gws : List AudioGatewayState) :
    ∀ (cams : List CamState) (m : List (String × CamEntry)) (x : String),
      x ∈ (cams.foldl (addCamera lo ca gws) m).map Prod.fst →
      x ∈ m.map Prod.fst ∨ ∃ c ∈ cams, c.uuid = x ∧ camPasses lo ca c := by
  intro cams
  induction cams with
  | nil => intro m x hx; exact Or.inl hx
  | cons c t ih =>
    intro m x hx
    rw [List.foldl_cons] at hx
    rcases ih (addCamera lo ca gws m c) x hx with h | ⟨c', hc', hu, hp⟩
    · unfold addCamera at h
      split at h
      · exact Or.inl h
      · split at h
        · exact Or.inl h
        · split at h
          · exact Or.inl h
          · next hred hloc hcam =>
            rw [keys_updateGateways] at h
            rcases keys_dictInsert _ _ _ _ h with rfl | h
            · refine Or.inr ⟨c, List.mem_cons_self c t, rfl, ?_, ?_, ?_⟩
              · simpa [beq_iff_eq] using hred
              · intro l hl
                rw [hl] at hloc
                simpa [bne] using hloc
              · intro u hu
                rw [hu] at hcam
                simpa [bne] using hcam
            · exact Or.inl h
    · exact Or.inr ⟨c', List.mem_cons_of_mem c hc', hu, hp⟩

/-- C9: every entry of the mapping returned by `get_camera_to_gateway_map`
comes from a camera whose connectivity state is not `"RED"` (the only
unhealthy state the source filters); and when a location filter and a device
filter are both given, that camera matches both simultaneously. -/
theorem C9_mapping (lo ca : Option String) (cams : List CamState)
    (gws : List AudioGatewayState) (k : String) (e : CamEntry)
    (hk : (k, e) ∈ get_camera_to_gateway_map lo ca cams gws) :
    ∃ c ∈ cams, c.uuid = k ∧ c.connectionStatus ≠ ("RED") ∧
      (∀ l, lo = some l → c.locationUuid = l) ∧
      (∀ u, ca = some u → c.uuid = u) := by
  have hx : k ∈ (get_camera_to_gateway_map lo ca cams gws).map Prod.fst :=
    List.mem_map.mpr ⟨(k, e), hk, rfl⟩
  unfold get_camera_to_gateway_map at hx
  rcases keys_foldl_addCamera lo ca gws cams [] k hx with h | ⟨c, hc, hu, hpass⟩
  · simp at h
  · exact ⟨c, hc, hu, hpass.1, hpass.2.1, hpass.2.2⟩

/-- C9 witness: with both filters set, the healthy matching camera `cam0`
appears in the map and satisfies both filters. -/
theorem C9_mapping_witness :
    ∃ c ∈ [cam0], c.uuid = ("U") ∧ c.connectionStatus ≠ ("RED") ∧
      (∀ l, (some ("L") : Option String) = some l → c.locationUuid = l) ∧
      (∀ u, (some ("U") : Option String) = some u → c.uuid = u) :=
  C9_mapping (some ("L")) (some ("U")) [cam0] [] ("U")
    { name := ("n"), audioGatewayUuid := none } (by decide)
